import Mathlib

/-!
Verification of the scheduling & completion-state core of
`src/activity_tracker.py`: the recurrence matcher
(`recurrence_matches_today`, lines 181-188), the dependency gate
(`can_mark_complete`, lines 190-199), the overdue calculator (`is_overdue`,
lines 201-208), and the missed-date / backfill computation of the
mark-complete handler (lines 380-397).

Dates are modelled day-granular, as days since 1970-01-01: every date the
application handles is day-granular (`date.today()`, and log dates that are
parsed and compared at midnight).  1970-01-01 was a Thursday, so Python's
`date.weekday()` (Monday = 0) is `(z + 3) % 7`; Python's `date.day` is the
day-of-month given by the standard civil-from-days conversion for the
proleptic Gregorian calendar.
-/

namespace ActivityTracker

/-- Python `date.weekday()` (Monday = 0) of day number `z` (days since
1970-01-01, which was a Thursday). -/
def weekday (z : Nat) : Nat := (z + 3) % 7

/-- Python `date.day` (day of month, 1..31) of day number `z` (days since
1970-01-01), via the standard civil-from-days conversion for the proleptic
Gregorian calendar that Python's `datetime.date` uses. -/
def dayOfMonth (z : Nat) : Nat :=
  let doe := (z + 719468) % 146097
  let yoe := (doe - doe / 1460 + doe / 36524 - doe / 146096) / 365
  let doy := doe - (365 * yoe + yoe / 4 - yoe / 100)
  let mp := (5 * doy + 2) / 153
  doy - (153 * mp + 2) / 5 + 1

/-- The `Recurrence` dict of an activity row, as built by the add-activity
form and `load_activities`: an optional `"type"` key and an optional
`"days"` key.  `Recurrence` with both keys absent models the empty dict
`{}`, which is falsy in Python. -/
structure Recurrence where
  type? : Option String
  days? : Option (List Nat)
deriving DecidableEq

/-- `recurrence_matches_today(rec, today)` (src/activity_tracker.py:181-188).
The argument `rec = none` models Python `None`; `if not rec` also sends the
empty dict (both keys absent) to `False`.  When the dict is non-empty but
has no `"type"` key, `rec.get("type", "daily")` yields `"daily"` and the
function returns `True`. -/
def recurrence_matches_today (rec : Option Recurrence) (today : Nat) : Bool :=
  match rec with
  | none => false
  | some r =>
    if r.type?.isNone && r.days?.isNone then false
    else
      match r.type? with
      | none => true
      | some t =>
        if t == "daily" then true
        else if t == "weekly" then (r.days?.getD []).contains (weekday today)
        else if t == "monthly" then (r.days?.getD [1]).contains (dayOfMonth today)
        else if t == "custom" then (r.days?.getD []).contains (weekday today)
        else false

/-- The fields of an activities-table row that the scheduling core reads:
`ID`, `Activity` (the display name) and `Dependencies` (a list of activity
names).  The other columns (Description, Schedule, Tags, Recurrence) are
never consulted by `can_mark_complete` or `is_overdue`; the recurrence is
handed separately to `recurrence_matches_today`, as in the source. -/
structure Activity where
  id : String
  name : String
  dependencies : List String
deriving DecidableEq

/-- A completion-log row: the columns the core reads (`Date`, `ActivityID`)
and those the mark-complete handler writes (`Status`, `Evidence Link`,
`Comments`, `User`, `Overdue`).  The `overdue` field is the `Overdue` flag
that the spec calls `wasBackfilled`; the wall-clock `Timestamp` column is
never read back by the core and is not modelled. -/
structure LogRow where
  date : Nat
  activityId : String
  status : String
  evidence : String
  comments : String
  user : String
  overdue : Bool
deriving DecidableEq

/-- The logs DataFrame as `load_logs` can produce it: either a frame with no
columns at all (a blank sheet yields `pd.DataFrame([])`, which has neither
an `ActivityID` nor a `Date` column), or a table that has the log columns
and a (possibly empty) list of rows. -/
inductive Logs where
  | empty : Logs
  | table : List LogRow → Logs
deriving DecidableEq

/-- The entries recorded for one activity: the abstract ledger query
(`entriesFor` of the spec).  A column-less frame records no entries. -/
def entriesFor (actId : String) : Logs → List LogRow
  | .empty => []
  | .table rows => rows.filter (fun r => r.activityId == actId)

/-- Tail-recursive maximum of the `Date` column, seeded with `m`. -/
def maxDateAux (m : Nat) : List LogRow → Nat
  | [] => m
  | r :: rs => maxDateAux (max m r.date) rs

/-- `rows["Date"].max()`: the maximum `Date` of a list of rows, `none` for
the empty frame. -/
def maxDate : List LogRow → Option Nat
  | [] => none
  | r :: rs => some (maxDateAux r.date rs)

/-- `is_overdue(act_id, logs, today)` (src/activity_tracker.py:201-208): if
the logs frame has no `ActivityID` column the function returns `False`;
otherwise it selects the rows for `act_id`, and if any exist the activity is
overdue iff their maximum `Date` is strictly before `today`; with no rows it
returns `True`. -/
def is_overdue (actId : String) (logs : Logs) (today : Nat) : Bool :=
  match logs with
  | .empty => false
  | .table rows =>
    match maxDate (rows.filter (fun r => r.activityId == actId)) with
    | none => true
    | some last => decide (last < today)

/-- The dependency loop of `can_mark_complete`
(src/activity_tracker.py:190-199), one iteration per dependency name.
`activities[activities["Activity"] == dep]` raises `KeyError` on the
column-less empty activities frame, and `logs["ActivityID"]` /
`logs["Date"]` raise on a column-less logs frame; a raised error is
modelled as `none`.  `activities.find?` is `.iloc[0]` of the filtered
frame: the first row, in collection order, whose `Activity` equals the
dependency name. -/
def canMarkGo (activities : List Activity) (logs : Logs) (today : Nat) :
    List String → Option Bool
  | [] => some true
  | dep :: rest =>
    match activities.isEmpty with
    | true => none
    | false =>
      match activities.find? (fun a => a.name == dep) with
      | none => canMarkGo activities logs today rest
      | some a =>
        match logs with
        | .empty => none
        | .table rows =>
          match rows.any (fun r => r.activityId == a.id && r.date == today) with
          | true => canMarkGo activities logs today rest
          | false => some false

/-- `can_mark_complete(act, activities, logs)`
(src/activity_tracker.py:190-199).  `today` is the ambient `get_today()`
the source reads inside the loop. -/
def can_mark_complete (act : Activity) (activities : List Activity)
    (logs : Logs) (today : Nat) : Option Bool :=
  canMarkGo activities logs today act.dependencies

/-- The `missed_dates` computation of the mark-complete handler
(src/activity_tracker.py:380-386): empty unless the activity is overdue and
has prior entries; otherwise
`[last_completed + timedelta(days=i) for i in range(1, (today - last_completed).days)]`,
the dates from the day after the last completion up to the day before
`today`.  The inner `Logs.empty` branch is unreachable (`is_overdue` is
`False` on a column-less frame). -/
def missedDates (actId : String) (logs : Logs) (today : Nat) : List Nat :=
  if is_overdue actId logs today then
    match logs with
    | .empty => []
    | .table rows =>
      match maxDate (rows.filter (fun r => r.activityId == actId)) with
      | none => []
      | some last => (List.range' 1 (today - last - 1)).map (fun i => last + i)
  else []

/-- The `new_entries` built by the mark-complete handler
(src/activity_tracker.py:387-393): one row per missed date plus one for
`today`, each with status `"Completed"`, identical evidence/comment/user
text, and the `Overdue` flag (the spec's `wasBackfilled`) set iff the row's
date is not `today`. -/
def computeBackfillEntries (actId : String) (logs : Logs) (today : Nat)
    (evidence comments user : String) : List LogRow :=
  (missedDates actId logs today ++ [today]).map
    (fun d => ⟨d, actId, "Completed", evidence, comments, user, d != today⟩)

/-! ### Helper lemmas -/

theorem maxDateAux_mono (m : Nat) (l : List LogRow) : m ≤ maxDateAux m l := by
  induction l generalizing m with
  | nil => exact Nat.le_refl m
  | cons r rs ih => exact Nat.le_trans (Nat.le_max_left m r.date) (ih (max m r.date))

theorem le_maxDateAux_of_mem {r : LogRow} {l : List LogRow} (m : Nat) (h : r ∈ l) :
    r.date ≤ maxDateAux m l := by
  induction l generalizing m with
  | nil => cases h
  | cons x xs ih =>
    cases h with
    | head => exact Nat.le_trans (Nat.le_max_right m r.date) (maxDateAux_mono _ xs)
    | tail _ h => exact ih _ h

theorem maxDateAux_append (m : Nat) (l₁ l₂ : List LogRow) :
    maxDateAux m (l₁ ++ l₂) = maxDateAux (maxDateAux m l₁) l₂ := by
  induction l₁ generalizing m with
  | nil => rfl
  | cons x xs ih => exact ih (max m x.date)

theorem maxDate_append_single_of_mem {r0 : LogRow} (l : List LogRow) (x : LogRow)
    (hmem : r0 ∈ l) (hdate : x.date = r0.date) :
    maxDate (l ++ [x]) = maxDate l := by
  cases l with
  | nil => cases hmem
  | cons r rs =>
    have hle : r0.date ≤ maxDateAux r.date rs := by
      cases hmem with
      | head => exact maxDateAux_mono _ rs
      | tail _ h => exact le_maxDateAux_of_mem _ h
    simp only [List.cons_append, maxDate, maxDateAux_append, maxDateAux, hdate]
    exact congrArg some (Nat.max_eq_left hle)

theorem find?_append_left_none {α} (p : α → Bool) (l₁ l₂ : List α)
    (h : ∀ x ∈ l₁, p x = false) : (l₁ ++ l₂).find? p = l₂.find? p := by
  induction l₁ with
  | nil => rfl
  | cons x xs ih =>
    simp only [List.cons_append, List.find?, h x (List.mem_cons_self x xs)]
    exact ih (fun y hy => h y (List.mem_cons_of_mem x hy))

/-- When the activities table is non-empty and the logs frame has its
columns, the dependency loop computes: every dependency is either
unresolvable (skipped) or resolved to the first activity of that name,
which must have a log row dated today. -/
theorem canMarkGo_char (acts : List Activity) (rows : List LogRow) (today : Nat)
    (hacts : acts ≠ []) (deps : List String) :
    canMarkGo acts (.table rows) today deps
      = some (deps.all fun dep =>
          match acts.find? (fun a => a.name == dep) with
          | none => true
          | some a => rows.any (fun r => r.activityId == a.id && r.date == today)) := by
  induction deps with
  | nil => rfl
  | cons dep rest ih =>
    have hne : acts.isEmpty = false := by
      cases acts with
      | nil => exact absurd rfl hacts
      | cons _ _ => rfl
    simp only [canMarkGo, hne, List.all_cons]
    cases hf : acts.find? (fun a => a.name == dep) with
    | none => simp only [hf, ih, Bool.true_and]
    | some a =>
      simp only [hf]
      cases hany : rows.any (fun r => r.activityId == a.id && r.date == today) with
      | true => simp only [ih, Bool.true_and]
      | false => simp only [Bool.false_and]

/-- Appending a row whose (activityId, date) pair is already present does
not change the dependency loop. -/
theorem canMarkGo_dup (acts : List Activity) (today : Nat) (rows : List LogRow)
    (r0 rdup : LogRow) (hmem : r0 ∈ rows) (hid : rdup.activityId = r0.activityId)
    (hdate : rdup.date = r0.date) (deps : List String) :
    canMarkGo acts (.table (rows ++ [rdup])) today deps
      = canMarkGo acts (.table rows) today deps := by
  have hany : ∀ aid : String,
      (rows ++ [rdup]).any (fun r => r.activityId == aid && r.date == today)
        = rows.any (fun r => r.activityId == aid && r.date == today) := by
    intro aid
    rw [List.any_append]
    cases hp : [rdup].any (fun r => r.activityId == aid && r.date == today) with
    | false => simp
    | true =>
      simp only [List.any_cons, List.any_nil, Bool.or_false] at hp
      rw [hid, hdate] at hp
      have : rows.any (fun r => r.activityId == aid && r.date == today) = true :=
        List.any_eq_true.mpr ⟨r0, hmem, hp⟩
      simp [this]
  induction deps with
  | nil => rfl
  | cons dep rest ih =>
    simp only [canMarkGo]
    cases acts.isEmpty with
    | true => rfl
    | false =>
      cases acts.find? (fun a => a.name == dep) with
      | none => exact ih
      | some a =>
        dsimp only
        rw [hany a.id]
        cases rows.any (fun r => r.activityId == a.id && r.date == today) with
        | true => exact ih
        | false => rfl

/-! ### Claims -/

/-- C1 counterexample: the completely empty ledger — the column-less frame a
blank logs sheet yields — has no entries for any activity, yet `is_overdue`
returns `false`: lines 202-203 of the source return `False` when the
`ActivityID` column is missing, so the claim "no entries at all for the
activity implies overdue, in particular on a completely empty ledger" fails
there. -/
theorem c1_counterexample : is_overdue ("a") Logs.empty 19723 = false := rfl

/-- C1 (amended): if the logs frame has its `ActivityID` column and contains
no row for `actId`, then `is_overdue` returns `true` for every date; only
the column-less empty frame returns `false`. -/
theorem c1_no_history_overdue (actId : String) (rows : List LogRow) (today : Nat)
    (h : rows.filter (fun r => r.activityId == actId) = []) :
    is_overdue actId (.table rows) today = true := by
  simp only [is_overdue, h, maxDate]

/-- C1 witness: a one-row table whose only entry belongs to another
activity; the queried activity is overdue. -/
theorem c1_no_history_overdue_witness :
    (([⟨19723, "b", "Completed", "", "", "", false⟩] : List LogRow).filter
        (fun r => r.activityId == ("a")) = [])
      ∧ is_overdue ("a") (.table [⟨19723, "b", "Completed", "", "", "", false⟩]) 19724 = true :=
  ⟨by decide,
    c1_no_history_overdue ("a") [⟨19723, "b", "Completed", "", "", "", false⟩] 19724 (by decide)⟩

/-- C2 counterexample: on the column-less empty logs frame, with a
dependency name that resolves to an existing activity, `can_mark_complete`
produces no boolean at all — the source raises `KeyError` at
`logs["ActivityID"]` (line 196) — so the core is not total over its input
domain as claimed. -/
theorem c2_counterexample :
    can_mark_complete ⟨"id0", "A", ["B"]⟩ [⟨"id1", "B", []⟩] Logs.empty 19723 = none := by
  decide

/-- C2 (amended): `recurrence_matches_today`, `is_overdue` and
`computeBackfillEntries` are total by construction (boolean/sequence-valued
on every input); `can_mark_complete` returns a defined boolean whenever the
activities table is non-empty and the logs frame has its columns.  It is
not total on the remaining inputs: a dependency that must be resolved
against a column-less logs frame (or an empty activities table) raises. -/
theorem c2_total_on_tables (act : Activity) (acts : List Activity)
    (rows : List LogRow) (today : Nat) (hacts : acts ≠ []) :
    (can_mark_complete act acts (.table rows) today).isSome := by
  show (canMarkGo acts (.table rows) today act.dependencies).isSome
  rw [canMarkGo_char acts rows today hacts act.dependencies]
  rfl

/-- C2 witness: one resolvable and one unresolvable dependency against an
empty-but-columned logs table still yield a defined boolean. -/
theorem c2_total_on_tables_witness :
    (([⟨"id1", "B", []⟩] : List Activity) ≠ [])
      ∧ (can_mark_complete ⟨"id0", "A", ["B", "C"]⟩ [⟨"id1", "B", []⟩]
          (.table []) 19723).isSome :=
  ⟨by decide, c2_total_on_tables ⟨"id0", "A", ["B", "C"]⟩ [⟨"id1", "B", []⟩] [] 19723 (by decide)⟩

/-- C4 counterexample: dependency "Water" resolves to an existing activity
that has no ledger entry dated today, so the claimed equivalence demands the
result `false`; on the column-less logs frame the source instead raises at
`logs["ActivityID"]` (modelled `none`), so the claim does not hold for every
ledger. -/
theorem c4_counterexample :
    can_mark_complete ⟨"a1", "Sweep", ["Water"]⟩ [⟨"a2", "Water", []⟩]
      Logs.empty 19800 = none := by
  decide

/-- C4 (amended): provided the logs frame has its columns and the activities
table is non-empty, `can_mark_complete` is `some false` iff some dependency
name that resolves (to the first exact name match in collection order) has
no log row with the resolved id dated exactly `today`: unresolvable names
are skipped (count as met), and an empty dependency list yields `true`. -/
theorem c4_gate_characterization (act : Activity) (acts : List Activity)
    (rows : List LogRow) (today : Nat) (hacts : acts ≠ []) :
    can_mark_complete act acts (.table rows) today
      = some (act.dependencies.all fun dep =>
          match acts.find? (fun a => a.name == dep) with
          | none => true
          | some a => rows.any (fun r => r.activityId == a.id && r.date == today)) :=
  canMarkGo_char acts rows today hacts act.dependencies

/-- C4 witness: "Water" resolves and is completed today, "Mop" is
unresolvable and skipped; the gate is open. -/
theorem c4_gate_characterization_witness :
    (([⟨"w1", "Water", []⟩] : List Activity) ≠ [])
      ∧ can_mark_complete ⟨"s1", "Sweep", ["Water", "Mop"]⟩ [⟨"w1", "Water", []⟩]
          (.table [⟨19723, "w1", "Completed", "", "", "", false⟩]) 19723
        = some ((["Water", "Mop"] : List String).all fun dep =>
            match ([⟨"w1", "Water", []⟩] : List Activity).find? (fun a => a.name == dep) with
            | none => true
            | some a => ([⟨19723, "w1", "Completed", "", "", "", false⟩] : List LogRow).any
                (fun r => r.activityId == a.id && r.date == 19723)) :=
  ⟨by decide, c4_gate_characterization ⟨"s1", "Sweep", ["Water", "Mop"]⟩ [⟨"w1", "Water", []⟩]
      [⟨19723, "w1", "Completed", "", "", "", false⟩] 19723 (by decide)⟩

/-- C5: for an activity with no ledger entries at all (on either shape of
frame), completion produces exactly one new entry, dated `today`, with the
`Overdue`/`wasBackfilled` flag clear: `missed_dates` stays empty because
either the activity is not overdue (column-less frame) or `past` is empty,
and only `today` is appended. -/
theorem c5_never_completed_single_entry (actId : String) (logs : Logs)
    (today : Nat) (e c u : String) (h : entriesFor actId logs = []) :
    computeBackfillEntries actId logs today e c u
      = [⟨today, actId, "Completed", e, c, u, false⟩] := by
  cases logs with
  | empty => simp [computeBackfillEntries, missedDates, is_overdue]
  | table rows =>
    have hf : rows.filter (fun r => r.activityId == actId) = [] := h
    simp [computeBackfillEntries, missedDates, is_overdue, hf, maxDate]

/-- C5 witness: the spec's "never completed" scenario, empty ledger and
today = 2024-03-10 (day 19792): exactly one entry, for that day, not
backfilled. -/
theorem c5_never_completed_single_entry_witness :
    entriesFor ("a") (Logs.table []) = []
      ∧ computeBackfillEntries ("a") (Logs.table []) 19792 ("") ("") ("")
        = [⟨19792, "a", "Completed", "", "", "", false⟩] :=
  ⟨rfl, c5_never_completed_single_entry ("a") (Logs.table []) 19792 ("") ("") ("") rfl⟩

/-- C6: for an activity with at least one ledger entry (maximum recorded
date `last`), `is_overdue` is `true` iff `last < today`, strictly — so a
same-day completion is never overdue. -/
theorem c6_overdue_iff_last_lt (actId : String) (rows : List LogRow)
    (today last : Nat)
    (h : maxDate (rows.filter (fun r => r.activityId == actId)) = some last) :
    is_overdue actId (.table rows) today = decide (last < today) := by
  simp only [is_overdue, h]

/-- C6 witness: last completion 2024-01-01 (day 19723) queried on the next
day is overdue; the same-day query is settled by the `decide`. -/
theorem c6_overdue_iff_last_lt_witness :
    maxDate (([⟨19723, "a", "Completed", "", "", "", false⟩] : List LogRow).filter
        (fun r => r.activityId == ("a"))) = some 19723
      ∧ is_overdue ("a") (.table [⟨19723, "a", "Completed", "", "", "", false⟩]) 19724
        = decide (19723 < 19724) :=
  ⟨by decide,
    c6_overdue_iff_last_lt ("a") [⟨19723, "a", "Completed", "", "", "", false⟩] 19724 19723 (by decide)⟩

/-- C3: with at least one prior entry for the activity (maximum recorded
date `last`) and `last < today`, completion produces exactly one entry per
calendar date strictly between `last` and `today` — the range
`last+1 .. today-1` — each carrying the `Overdue`/`wasBackfilled` flag,
followed by one final entry for `today` with the flag clear. -/
theorem c3_backfill_range (actId : String) (rows : List LogRow)
    (today last : Nat) (e c u : String)
    (hmax : maxDate (rows.filter (fun r => r.activityId == actId)) = some last)
    (hlt : last < today) :
    computeBackfillEntries actId (.table rows) today e c u
      = (List.range' (last + 1) (today - last - 1)).map
          (fun d => ⟨d, actId, "Completed", e, c, u, true⟩)
        ++ [⟨today, actId, "Completed", e, c, u, false⟩] := by
  have hover : is_overdue actId (.table rows) today = true := by
    simp only [is_overdue, hmax, decide_eq_true_eq]
    exact hlt
  have hmiss : missedDates actId (.table rows) today
      = (List.range' 1 (today - last - 1)).map (fun i => last + i) := by
    simp [missedDates, hover, hmax]
  simp only [computeBackfillEntries, hmiss, List.map_append]
  rw [List.map_add_range' last 1 (today - last - 1) 1]
  congr 1
  · refine List.map_congr_left (fun d hd => ?_)
    have hd' := List.mem_range'_1.mp hd
    have hne : d ≠ today := by omega
    rw [bne_iff_ne.mpr hne]
  · simp

/-- C3 witness: the spec's scenario — last completion 2024-01-01 (day
19723), today 2024-01-05 (day 19727) — yields the three backfilled entries
for 01-02..01-04 and the final entry for 01-05, four entries in all. -/
theorem c3_backfill_range_witness :
    maxDate (([⟨19723, "a", "Completed", "", "", "", false⟩] : List LogRow).filter
        (fun r => r.activityId == ("a"))) = some 19723
      ∧ 19723 < 19727
      ∧ computeBackfillEntries ("a") (.table [⟨19723, "a", "Completed", "", "", "", false⟩])
            19727 ("") ("") ("")
          = (List.range' 19724 3).map (fun d => ⟨d, "a", "Completed", "", "", "", true⟩)
            ++ [⟨19727, "a", "Completed", "", "", "", false⟩] :=
  ⟨by decide, by decide,
    c3_backfill_range ("a") [⟨19723, "a", "Completed", "", "", "", false⟩] 19727 19723
      ("") ("") ("") (by decide) (by decide)⟩

/-- C7: for kind weekly or custom, a recurrence matches iff today's weekday
index (Monday = 0) is a member of `days` — with `days` empty or absent it
matches no date; for kind monthly, iff today's day-of-month is a member of
`days`, which defaults to `[1]` when absent. -/
theorem c7_weekly_custom_monthly (r : Recurrence) (d : Nat) :
    ((r.type? = some ("weekly") ∨ r.type? = some ("custom")) →
        recurrence_matches_today (some r) d = (r.days?.getD []).contains (weekday d))
      ∧ (r.type? = some ("monthly") →
        recurrence_matches_today (some r) d = (r.days?.getD [1]).contains (dayOfMonth d)) := by
  obtain ⟨t?, ds?⟩ := r
  refine ⟨?_, ?_⟩
  · rintro (h | h) <;> (dsimp only at h; subst h; rfl)
  · intro h
    dsimp only at h
    subst h
    rfl

/-- C7 witness: a weekly recurrence on Mondays and Wednesdays matches
2024-01-01 (day 19723, a Monday). -/
theorem c7_weekly_custom_monthly_witness :
    recurrence_matches_today (some ⟨some ("weekly"), some [0, 2]⟩) 19723
        = ((some [0, 2] : Option (List Nat)).getD []).contains (weekday 19723)
      ∧ recurrence_matches_today (some ⟨some ("weekly"), some [0, 2]⟩) 19723 = true :=
  ⟨(c7_weekly_custom_monthly ⟨some ("weekly"), some [0, 2]⟩ 19723).1 (Or.inl rfl), by decide⟩

/-- C8: an absent/null recurrence never matches; a recurrence whose kind is
present but none of daily/weekly/monthly/custom never matches; kind daily
matches every date. -/
theorem c8_null_unknown_daily (d : Nat) :
    recurrence_matches_today none d = false
      ∧ (∀ r : Recurrence, ∀ t : String, r.type? = some t →
          t ≠ ("daily") → t ≠ ("weekly") → t ≠ ("monthly") → t ≠ ("custom") →
          recurrence_matches_today (some r) d = false)
      ∧ (∀ r : Recurrence, r.type? = some ("daily") →
          recurrence_matches_today (some r) d = true) := by
  refine ⟨rfl, ?_, ?_⟩
  · rintro ⟨t?, ds?⟩ t h h1 h2 h3 h4
    dsimp only at h
    subst h
    have e1 : (t == ("daily" : String)) = false := beq_eq_false_iff_ne.mpr h1
    have e2 : (t == ("weekly" : String)) = false := beq_eq_false_iff_ne.mpr h2
    have e3 : (t == ("monthly" : String)) = false := beq_eq_false_iff_ne.mpr h3
    have e4 : (t == ("custom" : String)) = false := beq_eq_false_iff_ne.mpr h4
    simp [recurrence_matches_today, e1, e2, e3, e4]
  · rintro ⟨t?, ds?⟩ h
    dsimp only at h
    subst h
    rfl

/-- C8 witness: an unrecognized kind ("yearly") never matches, even with a
days list present. -/
theorem c8_null_unknown_daily_witness :
    recurrence_matches_today (some ⟨some ("yearly"), some [0]⟩) 19723 = false :=
  (c8_null_unknown_daily 19723).2.1 ⟨some ("yearly"), some [0]⟩ ("yearly") rfl
    (by decide) (by decide) (by decide) (by decide)

/-- C9: appending a duplicate entry for an (activityId, date) pair that
already has an entry changes neither `is_overdue` nor `can_mark_complete`,
for every activity and date queried: both only depend on existence of a
matching entry and on the maximum date, which the duplicate does not
alter. -/
theorem c9_duplicates_harmless (rows : List LogRow) (r0 rdup : LogRow)
    (hmem : r0 ∈ rows) (hid : rdup.activityId = r0.activityId)
    (hdate : rdup.date = r0.date) :
    (∀ actId today, is_overdue actId (.table (rows ++ [rdup])) today
        = is_overdue actId (.table rows) today)
      ∧ (∀ act acts today, can_mark_complete act acts (.table (rows ++ [rdup])) today
        = can_mark_complete act acts (.table rows) today) := by
  constructor
  · intro actId today
    simp only [is_overdue]
    rw [List.filter_append]
    cases hp : (rdup.activityId == actId) with
    | false =>
      have hfil : [rdup].filter (fun r => r.activityId == actId) = [] := by
        simp [List.filter_cons, hp]
      rw [hfil, List.append_nil]
    | true =>
      have hfil : [rdup].filter (fun r => r.activityId == actId) = [rdup] := by
        simp [List.filter_cons, hp]
      rw [hid] at hp
      have hr0 : r0 ∈ rows.filter (fun r => r.activityId == actId) :=
        List.mem_filter.mpr ⟨hmem, hp⟩
      rw [hfil, maxDate_append_single_of_mem _ _ hr0 hdate]
  · intro act acts today
    exact canMarkGo_dup acts today rows r0 rdup hmem hid hdate act.dependencies

/-- C9 witness: duplicating the sole completion entry leaves the overdue
verdict unchanged. -/
theorem c9_duplicates_harmless_witness :
    is_overdue ("a") (.table ([⟨19723, "a", "Completed", "", "", "", false⟩]
          ++ [⟨19723, "a", "Completed", "x", "y", "z", false⟩])) 19725
      = is_overdue ("a") (.table [⟨19723, "a", "Completed", "", "", "", false⟩]) 19725 :=
  (c9_duplicates_harmless [⟨19723, "a", "Completed", "", "", "", false⟩]
      ⟨19723, "a", "Completed", "", "", "", false⟩
      ⟨19723, "a", "Completed", "x", "y", "z", false⟩
      (List.mem_cons_self _ _) rfl rfl).1 ("a") 19725

/-- C10: a dependency name carried by several activities resolves to the
first matching activity in collection order, and only that activity's
completion state for today determines the gate; the activities after the
first match (including later duplicates of the name) are never consulted. -/
theorem c10_first_name_match (n : String) (xs ys : List Activity) (a act : Activity)
    (rows : List LogRow) (today : Nat)
    (hname : a.name = n) (hxs : ∀ x ∈ xs, x.name ≠ n)
    (hdep : act.dependencies = [n]) :
    can_mark_complete act (xs ++ a :: ys) (.table rows) today
      = some (rows.any (fun r => r.activityId == a.id && r.date == today)) := by
  show canMarkGo (xs ++ a :: ys) (.table rows) today act.dependencies = _
  rw [hdep]
  have hne : (xs ++ a :: ys).isEmpty = false := by
    cases xs with
    | nil => rfl
    | cons _ _ => rfl
  have hfind : (xs ++ a :: ys).find? (fun x => x.name == n) = some a := by
    rw [find?_append_left_none (fun x => x.name == n) xs (a :: ys)
      (fun x hx => beq_eq_false_iff_ne.mpr (hxs x hx))]
    simp [List.find?, hname]
  simp only [canMarkGo, hne, hfind]
  cases rows.any (fun r => r.activityId == a.id && r.date == today) with
  | true => rfl
  | false => rfl

/-- C10 witness: two activities named "B"; the second one is completed
today, yet the gate consults the first ("id1") and stays closed. -/
theorem c10_first_name_match_witness :
    can_mark_complete ⟨"id0", "A", ["B"]⟩
        ((⟨"id1", "B", []⟩ : Activity) :: [⟨"id2", "B", []⟩])
        (.table [⟨19723, "id2", "Completed", "", "", "", false⟩]) 19723
      = some (([⟨19723, "id2", "Completed", "", "", "", false⟩] : List LogRow).any
          (fun r => r.activityId == ("id1" : String) && r.date == 19723)) :=
  c10_first_name_match ("B") [] [⟨"id2", "B", []⟩] ⟨"id1", "B", []⟩ ⟨"id0", "A", ["B"]⟩
    [⟨19723, "id2", "Completed", "", "", "", false⟩] 19723 rfl (by simp) rfl

end ActivityTracker
